import Mathlib

/-!
Verification development for the mFRT (Modified Functional Reach Test)
bio-digital physics kernel: a shallow embedding of the worker engine in
`src/hooks/usePoseEstimation.tsx` (v11.0 "gold master") and of the session
trial state machine in `src/App.tsx`, with theorems about the embedded code.

JavaScript floating-point numbers are modelled as real numbers; division by
zero yields 0 in this model (the source never divides by zero on the inputs
exercised here, except where noted in comments).
-/

set_option maxHeartbeats 1600000

namespace MFRT

noncomputable section

/-! ## 1. Math kernel (`Vec3` in the worker source) -/

@[ext]
structure Vec3 where
  x : ℝ
  y : ℝ
  z : ℝ

/-- The zero vector, used where the source produces `{x:0,y:0,z:0}`. -/
def vzero : Vec3 := ⟨0, 0, 0⟩

namespace Vec3

def sub (a b : Vec3) : Vec3 := ⟨a.x - b.x, a.y - b.y, a.z - b.z⟩

def add (a b : Vec3) : Vec3 := ⟨a.x + b.x, a.y + b.y, a.z + b.z⟩

def mul (v : Vec3) (s : ℝ) : Vec3 := ⟨v.x * s, v.y * s, v.z * s⟩

def dot (a b : Vec3) : ℝ := a.x * b.x + a.y * b.y + a.z * b.z

def cross (a b : Vec3) : Vec3 :=
  ⟨a.y * b.z - a.z * b.y, a.z * b.x - a.x * b.z, a.x * b.y - a.y * b.x⟩

def mag (v : Vec3) : ℝ := Real.sqrt (v.x * v.x + v.y * v.y + v.z * v.z)

/-- Source `normalize`: returns the zero vector when the magnitude is zero. -/
def normalize (v : Vec3) : Vec3 :=
  if mag v = 0 then ⟨0, 0, 0⟩ else ⟨v.x / mag v, v.y / mag v, v.z / mag v⟩

/-- Source `project(v, n)`: just the dot product. -/
def project (v n : Vec3) : ℝ := dot v n

/-- Source `angleBetween`: arc cosine of the clamped dot of the normalized
vectors, converted to degrees. -/
def angleBetween (a b : Vec3) : ℝ :=
  Real.arccos (max (-1) (min 1 (dot (normalize a) (normalize b)))) * (180 / Real.pi)

end Vec3

open Vec3

/-! ### Vector algebra lemmas -/

theorem dot_self_nonneg (v : Vec3) : 0 ≤ dot v v := by
  unfold dot; nlinarith [mul_self_nonneg v.x, mul_self_nonneg v.y, mul_self_nonneg v.z]

theorem mag_eq_sqrt_dot (v : Vec3) : mag v = Real.sqrt (dot v v) := rfl

theorem mag_mul_self (v : Vec3) : mag v * mag v = dot v v := by
  rw [mag_eq_sqrt_dot]; exact Real.mul_self_sqrt (dot_self_nonneg v)

theorem mag_nonneg (v : Vec3) : 0 ≤ mag v := Real.sqrt_nonneg _

theorem mag_eq_zero_iff (v : Vec3) : mag v = 0 ↔ v = vzero := by
  constructor
  · intro h
    have h2 : dot v v = 0 := by
      have := mag_mul_self v; rw [h] at this; linarith
    unfold dot at h2
    have hx : v.x = 0 := by nlinarith [mul_self_nonneg v.x, mul_self_nonneg v.y, mul_self_nonneg v.z]
    have hy : v.y = 0 := by nlinarith [mul_self_nonneg v.x, mul_self_nonneg v.y, mul_self_nonneg v.z]
    have hz : v.z = 0 := by nlinarith [mul_self_nonneg v.x, mul_self_nonneg v.y, mul_self_nonneg v.z]
    ext <;> simp [hx, hy, hz, vzero]
  · intro h; subst h; simp [mag, vzero]

theorem mag_ne_zero (v : Vec3) (h : v ≠ vzero) : mag v ≠ 0 := by
  intro h2; exact h ((mag_eq_zero_iff v).mp h2)

theorem normalize_eq_mul (v : Vec3) (h : v ≠ vzero) :
    Vec3.normalize v = Vec3.mul v (mag v)⁻¹ := by
  unfold Vec3.normalize Vec3.mul
  rw [if_neg (mag_ne_zero v h)]
  ext <;> simp [div_eq_mul_inv]

theorem dot_mul_left (a b : Vec3) (s : ℝ) : dot (Vec3.mul a s) b = s * dot a b := by
  unfold dot Vec3.mul; ring

theorem dot_mul_right (a b : Vec3) (s : ℝ) : dot a (Vec3.mul b s) = s * dot a b := by
  unfold dot Vec3.mul; ring

theorem dot_comm (a b : Vec3) : dot a b = dot b a := by unfold dot; ring

theorem normalize_dot_self (v : Vec3) (h : v ≠ vzero) :
    dot (Vec3.normalize v) (Vec3.normalize v) = 1 := by
  rw [normalize_eq_mul v h, dot_mul_left, dot_mul_right, ← mag_mul_self]
  have hm := mag_ne_zero v h
  field_simp

theorem cross_mul_left (a b : Vec3) (s : ℝ) :
    cross (Vec3.mul a s) b = Vec3.mul (cross a b) s := by
  unfold cross Vec3.mul; ext <;> dsimp <;> ring

theorem cross_mul_right (a b : Vec3) (s : ℝ) :
    cross a (Vec3.mul b s) = Vec3.mul (cross a b) s := by
  unfold cross Vec3.mul; ext <;> dsimp <;> ring

theorem mul_mul (v : Vec3) (s t : ℝ) : Vec3.mul (Vec3.mul v s) t = Vec3.mul v (s * t) := by
  unfold Vec3.mul; ext <;> dsimp <;> ring

theorem mul_ne_zero_vec (v : Vec3) (s : ℝ) (hv : v ≠ vzero) (hs : s ≠ 0) :
    Vec3.mul v s ≠ vzero := by
  intro h
  apply hv
  have hx : v.x * s = 0 := congrArg Vec3.x h
  have hy : v.y * s = 0 := congrArg Vec3.y h
  have hz : v.z * s = 0 := congrArg Vec3.z h
  ext
  · exact (mul_eq_zero.mp hx).resolve_right hs
  · exact (mul_eq_zero.mp hy).resolve_right hs
  · exact (mul_eq_zero.mp hz).resolve_right hs

theorem dot_cross_left (a b : Vec3) : dot (cross a b) a = 0 := by
  unfold dot cross; ring

theorem dot_cross_right (a b : Vec3) : dot (cross a b) b = 0 := by
  unfold dot cross; ring

theorem cross_lagrange (a b : Vec3) :
    dot (cross a b) (cross a b) = dot a a * dot b b - dot a b * dot a b := by
  unfold dot cross; ring

theorem cross_cross_left (a b : Vec3) :
    cross (cross a b) a = Vec3.sub (Vec3.mul b (dot a a)) (Vec3.mul a (dot a b)) := by
  unfold cross dot Vec3.sub Vec3.mul; ext <;> dsimp <;> ring

theorem cross_zero_left (b : Vec3) : cross vzero b = vzero := by
  unfold cross vzero; ext <;> dsimp <;> ring

theorem cross_zero_right (a : Vec3) : cross a vzero = vzero := by
  unfold cross vzero; ext <;> dsimp <;> ring

theorem mul_one_vec (v : Vec3) : Vec3.mul v 1 = v := by
  unfold Vec3.mul; ext <;> simp

theorem mul_zero_vec (v : Vec3) : Vec3.mul v 0 = vzero := by
  unfold Vec3.mul vzero; ext <;> simp

theorem sub_zero_vec (v : Vec3) : Vec3.sub v vzero = v := by
  unfold Vec3.sub vzero; ext <;> simp

theorem normalize_of_dot_one (v : Vec3) (h : dot v v = 1) : Vec3.normalize v = v := by
  have hm : mag v = 1 := by
    rw [mag_eq_sqrt_dot, h, Real.sqrt_one]
  unfold Vec3.normalize
  rw [hm]
  norm_num

theorem mag_one_of_dot_one (v : Vec3) (h : dot v v = 1) : mag v = 1 := by
  rw [mag_eq_sqrt_dot, h, Real.sqrt_one]

/-! ### Numeric evaluation helpers -/

theorem sqrt_eval (a b : ℝ) (hb : 0 ≤ b) (h : b * b = a) : Real.sqrt a = b := by
  rw [← h]; exact Real.sqrt_mul_self hb

theorem sqrt_four : Real.sqrt 4 = 2 := sqrt_eval 4 2 (by norm_num) (by norm_num)

theorem sqrt_nine : Real.sqrt 9 = 3 := sqrt_eval 9 3 (by norm_num) (by norm_num)

theorem sqrt_sixteen : Real.sqrt 16 = 4 := sqrt_eval 16 4 (by norm_num) (by norm_num)

theorem sqrt_twentyfive : Real.sqrt 25 = 5 := sqrt_eval 25 5 (by norm_num) (by norm_num)

theorem sqrt_fortynine : Real.sqrt 49 = 7 := sqrt_eval 49 7 (by norm_num) (by norm_num)

theorem arccos_one_deg : Real.arccos 1 * (180 / Real.pi) = 0 := by
  rw [Real.arccos_one]; ring

theorem arccos_zero_deg : Real.arccos 0 * (180 / Real.pi) = 90 := by
  rw [Real.arccos_zero]
  field_simp
  ring

theorem pi_half_deg : Real.pi / 2 * (180 / Real.pi) = 90 := by
  field_simp
  ring

/-- JavaScript `Math.round` (round half toward positive infinity). -/
def jsRound (x : ℝ) : ℝ := ((Int.floor (x + 1 / 2) : ℤ) : ℝ)

theorem jsRound_eval (x : ℝ) (n : ℤ) (h1 : (n : ℝ) ≤ x + 1 / 2) (h2 : x + 1 / 2 < n + 1) :
    jsRound x = n := by
  unfold jsRound
  rw [Int.floor_eq_iff.mpr ⟨h1, h2⟩]

theorem jsRound_le_of_le (x c : ℝ) (n : ℤ) (hc : x ≤ c) (hn : c + 1 / 2 < n + 1) :
    jsRound x ≤ n := by
  unfold jsRound
  have h1 : (Int.floor (x + 1 / 2) : ℝ) ≤ x + 1 / 2 := Int.floor_le _
  have h2 : (Int.floor (x + 1 / 2) : ℝ) < n + 1 := by linarith
  have h3 : Int.floor (x + 1 / 2) < n + 1 := by exact_mod_cast h2
  have h4 : Int.floor (x + 1 / 2) ≤ n := by omega
  exact_mod_cast h4

theorem jsRound_nonneg (x : ℝ) (hx : 0 ≤ x) : 0 ≤ jsRound x := by
  unfold jsRound
  have : (0 : ℤ) ≤ Int.floor (x + 1 / 2) := by
    apply Int.le_floor.mpr
    push_cast
    linarith
  exact_mod_cast this

/-! ## 2. `SavitzkyGolaySolver`: sliding-window numerical differentiator.
`MAX_SIZE = 5`; the convolution loop is unrolled over the fixed coefficient
list `[-0.2, -0.1, 0, 0.1, 0.2]`. -/

structure SavitzkyGolaySolver where
  window : List ℝ
  timestamps : List ℝ

def emptySGS : SavitzkyGolaySolver := ⟨[], []⟩

namespace SavitzkyGolaySolver

/-- Source `push(val, t)`: append, then shift the oldest sample out once past `MAX_SIZE`. -/
def push (s : SavitzkyGolaySolver) (val t : ℝ) : SavitzkyGolaySolver :=
  let w := s.window ++ [val]
  let ts := s.timestamps ++ [t]
  if w.length > 5 then ⟨w.tail, ts.tail⟩ else ⟨w, ts⟩

/-- Source `solve()`: returns `(v, valid)`. Invalid until the window is full or when
the timestamp span is non-positive. -/
def solve (s : SavitzkyGolaySolver) : ℝ × Bool :=
  if s.window.length < 5 then (0, false)
  else
    let dt := (s.timestamps.getD 4 0 - s.timestamps.getD 0 0) / 1000
    if dt ≤ 0 then (0, false)
    else
      let v := s.window.getD 0 0 * (-0.2) + s.window.getD 1 0 * (-0.1) +
               s.window.getD 2 0 * 0 + s.window.getD 3 0 * 0.1 + s.window.getD 4 0 * 0.2
      (v / (dt / 4), true)

end SavitzkyGolaySolver

/-! ## 3. `KinematicChain`: per-axis smoothing plus the teleportation
glitch guard. -/

structure KinRes where
  vel : Vec3
  speed : ℝ
  valid : Bool
  glitch : Bool

structure KinematicChain where
  x : SavitzkyGolaySolver
  y : SavitzkyGolaySolver
  z : SavitzkyGolaySolver
  lastValidPoint : Option Vec3
  lastTime : ℝ

def emptyChain : KinematicChain := ⟨emptySGS, emptySGS, emptySGS, none, 0⟩

namespace KinematicChain

/-- The teleportation-glitch test of `update` (implied instantaneous speed
above 500 cm/s relative to the last valid point). -/
def glitchTest (c : KinematicChain) (point : Vec3) (t scaleFactor : ℝ) : Bool :=
  match c.lastValidPoint with
  | some p =>
      if c.lastTime > 0 then
        let dt := (t - c.lastTime) / 1000
        if dt > 0 then
          decide ((mag (Vec3.sub point p) * scaleFactor) / dt > 500)
        else false
      else false
  | none => false

/-- Source `update(point, t, scaleFactor)`. On a glitch (>500 cm/s implied
instantaneous speed) the chain is returned unchanged. -/
def update (c : KinematicChain) (point : Vec3) (t scaleFactor : ℝ) :
    KinematicChain × KinRes :=
  if glitchTest c point t scaleFactor then (c, ⟨⟨0, 0, 0⟩, 0, false, true⟩)
  else
    let cx := c.x.push point.x t
    let cy := c.y.push point.y t
    let cz := c.z.push point.z t
    let sx := cx.solve
    let sy := cy.solve
    let sz := cz.solve
    (⟨cx, cy, cz, some point, t⟩,
     ⟨⟨sx.1, sy.1, sz.1⟩,
      Real.sqrt (sx.1 * sx.1 + sy.1 * sy.1 + sz.1 * sz.1), sx.2, false⟩)

end KinematicChain

/-! ## 4. `MedicalEngine` data model -/

inductive Side
  | LEFT
  | RIGHT
deriving DecidableEq

/-- Engine phase strings. `COMPLETED` never arises in the engine; the UI layer
compares against it, so it is part of the phase alphabet. -/
inductive Phase
  | UNSTABLE
  | LOCKED
  | REACHING
  | RETURNING
  | COMPLETED
deriving DecidableEq

inductive FailReason
  | TORSO_SLIP
  | ROTATION
  | LATERAL_LEAN
  | BUTT_LIFT
  | MOMENTUM
deriving DecidableEq

inductive Zone
  | GREEN
  | YELLOW
  | RED
deriving DecidableEq

/-- Persistence (debounce) counters. The source field `lean` is named
`leanC` here; all five are JavaScript numbers holding integers. -/
structure Counters where
  rotation : ℤ
  lift : ℤ
  leanC : ℤ
  slip : ℤ
  momentum : ℤ
deriving DecidableEq

def czero : Counters := ⟨0, 0, 0, 0, 0⟩

/-- Calibration anchors; `null` fields of the source are `Option`s. -/
structure Anchors where
  startKnuckle : Option Vec3
  midHip : Option Vec3
  spineLength : ℝ
  shoulderVector : Option Vec3
  initialShoulderAngle : ℝ

/-- The record returned by `computeBasis` (and stored into `this.basis`
at a force lock). -/
structure BasisResult where
  x : Vec3
  y : Vec3
  z : Vec3
  origin : Vec3
  rawSpineLength : ℝ
  rawShoulderVec : Vec3

structure Engine where
  handKinematics : KinematicChain
  hipKinematics : KinematicChain
  side : Side
  patientHeightCm : ℝ
  patientArmLengthCm : ℝ
  scaleFactor : ℝ
  phase : Phase
  stabilityCounter : ℕ
  pendingForceLock : Bool
  counters : Counters
  basis : Option BasisResult
  anchors : Anchors
  maxReachCm : ℝ
  failReason : Option FailReason
  lastValidDirection : Vec3

/-- The engine constructor state. -/
def initEngine : Engine where
  handKinematics := emptyChain
  hipKinematics := emptyChain
  side := Side.LEFT
  patientHeightCm := 170
  patientArmLengthCm := 75
  scaleFactor := 0
  phase := Phase.UNSTABLE
  stabilityCounter := 0
  pendingForceLock := false
  counters := czero
  basis := none
  anchors := ⟨none, none, 0, none, 0⟩
  maxReachCm := 0
  failReason := none
  lastValidDirection := ⟨0, 0, 0⟩

structure CalibPayload where
  height : ℝ
  armLength : ℝ

/-- Source `MedicalEngine.calibrate`. -/
def calibrate (e : Engine) (payload : CalibPayload) : Engine :=
  { e with patientHeightCm := payload.height, patientArmLengthCm := payload.armLength,
           pendingForceLock := true, phase := Phase.UNSTABLE }

/-- Source `MedicalEngine.reset`: clears chains, phase, counters, basis — but not
anchors, side, scale factor or patient anthropometry. -/
def resetEngine (e : Engine) : Engine :=
  { e with handKinematics := emptyChain, hipKinematics := emptyChain,
           phase := Phase.UNSTABLE, stabilityCounter := 0, pendingForceLock := false,
           maxReachCm := 0, failReason := none,
           basis := none, counters := czero }

/-- Source `MedicalEngine.setSide`. -/
def setSide (e : Engine) (s : Side) : Engine :=
  resetEngine { e with side := s }

/-- One input frame: screen-space landmarks (`lm`, only x/y used),
world-space landmarks (`world`), and a timestamp in milliseconds. -/
structure Frame where
  lm : ℕ → Vec3
  world : ℕ → Vec3
  t : ℝ

/-- Source `getIndices` landmark index table. -/
structure Indices where
  SHOULDER : ℕ
  ELBOW : ℕ
  WRIST : ℕ
  HIP : ℕ
  LEFT_SHOULDER : ℕ
  RIGHT_SHOULDER : ℕ
  LEFT_HIP : ℕ
  RIGHT_HIP : ℕ
  ACTIVE_SHOULDER : ℕ
  ACTIVE_WRIST : ℕ
  ACTIVE_INDEX : ℕ

def getIndices (s : Side) : Indices :=
  match s with
  | Side.RIGHT => ⟨12, 14, 16, 24, 11, 12, 23, 24, 12, 16, 20⟩
  | Side.LEFT => ⟨11, 13, 15, 23, 11, 12, 23, 24, 11, 15, 19⟩

/-! ## 5. `computeBasis` (the anatomical frame builder) -/

/-- Mid-hip point (landmarks 23/24). -/
def midHipW (wl : ℕ → Vec3) : Vec3 := Vec3.mul (Vec3.add (wl 23) (wl 24)) 0.5

/-- Mid-shoulder point (landmarks 11/12). -/
def midShoulderW (wl : ℕ → Vec3) : Vec3 := Vec3.mul (Vec3.add (wl 11) (wl 12)) 0.5

/-- Spine vector: mid-shoulder minus mid-hip. -/
def spineVecOf (wl : ℕ → Vec3) : Vec3 := Vec3.sub (midShoulderW wl) (midHipW wl)

/-- Shoulder vector: right shoulder minus left shoulder. -/
def shoulderVecOf (wl : ℕ → Vec3) : Vec3 := Vec3.sub (wl 12) (wl 11)

/-- Active-arm vector: active wrist minus active shoulder. -/
def armVecOf (s : Side) (wl : ℕ → Vec3) : Vec3 :=
  Vec3.sub (wl (getIndices s).ACTIVE_WRIST) (wl (getIndices s).ACTIVE_SHOULDER)

/-- The forward axis before the sign correction:
`normalize(cross(X_rough, Y))`. -/
def basisForwardRaw (wl : ℕ → Vec3) : Vec3 :=
  Vec3.normalize (cross (Vec3.normalize (shoulderVecOf wl)) (Vec3.normalize (spineVecOf wl)))

/-- Source `MedicalEngine.computeBasis`. -/
def computeBasis (s : Side) (wl : ℕ → Vec3) : BasisResult :=
  let Y := Vec3.normalize (spineVecOf wl)
  let Z1 := basisForwardRaw wl
  let Z := if dot Z1 (Vec3.normalize (armVecOf s wl)) < 0 then Vec3.mul Z1 (-1) else Z1
  let X := Vec3.normalize (cross Y Z)
  { x := X, y := Y, z := Z, origin := midHipW wl,
    rawSpineLength := mag (spineVecOf wl), rawShoulderVec := shoulderVecOf wl }

/-! ## 6. `MedicalEngine.process` — pipeline stages -/

/-- Step 2, "virtual knuckle": returns the knuckle point and the (possibly
updated) `lastValidDirection`. -/
def knuckleDirOf (e : Engine) (f : Frame) : Vec3 × Vec3 :=
  let idx := getIndices e.side
  let wrist := f.world idx.WRIST
  let elbow := f.world idx.ELBOW
  let forearmVec := Vec3.sub wrist elbow
  let vecMag := mag forearmVec
  if vecMag < 0.05 then
    (Vec3.add wrist (Vec3.mul e.lastValidDirection (vecMag * 0.4)), e.lastValidDirection)
  else
    let dir := Vec3.normalize forearmVec
    (Vec3.add wrist (Vec3.mul dir (vecMag * 0.4)), dir)

def knuckleOf (e : Engine) (f : Frame) : Vec3 := (knuckleDirOf e f).1

def currentBasisOf (e : Engine) (f : Frame) : BasisResult := computeBasis e.side f.world

/-- Step 3 fusion logic as a function of patient data and measured segment
lengths (`scaleSpine`, `scaleArm`, divergence check). -/
def calculatedScaleF (H A s a : ℝ) : ℝ :=
  let scaleSpine := H * 0.29 / s
  let scaleArm := A / a
  let divergence := |scaleArm - scaleSpine| / scaleSpine
  if divergence < 0.2 then scaleArm else scaleSpine

/-- Measured active shoulder-to-index length (`armMeters`). -/
def armMetersOf (e : Engine) (f : Frame) : ℝ :=
  let idx := getIndices e.side
  mag (Vec3.sub (f.world idx.ACTIVE_INDEX) (f.world idx.ACTIVE_SHOULDER))

def calculatedScaleOf (e : Engine) (f : Frame) : ℝ :=
  calculatedScaleF e.patientHeightCm e.patientArmLengthCm
    (currentBasisOf e f).rawSpineLength (armMetersOf e f)

/-- Source `activeScale`: the locked factor once out of `UNSTABLE` with a positive
scale, otherwise the per-frame candidate. Evaluated on the pre-force-lock
state, as in the source. -/
def activeScaleOf (e : Engine) (f : Frame) : ℝ :=
  if e.phase ≠ Phase.UNSTABLE ∧ e.scaleFactor > 0 then e.scaleFactor
  else calculatedScaleOf e f

/-- The engine after step 2 (`lastValidDirection` write-back). -/
def e1Of (e : Engine) (f : Frame) : Engine :=
  { e with lastValidDirection := (knuckleDirOf e f).2 }

/-- Step 4, force-lock handler: commits basis, anchors and the fused scale,
and moves to `LOCKED`. -/
def preKinOf (e : Engine) (f : Frame) : Engine :=
  let e1 := e1Of e f
  if e1.pendingForceLock then
    { e1 with
        basis := some (currentBasisOf e f),
        anchors := { startKnuckle := some (knuckleOf e f),
                     midHip := some (midHipW f.world),
                     spineLength := (currentBasisOf e f).rawSpineLength,
                     shoulderVector := some (Vec3.normalize (currentBasisOf e f).rawShoulderVec),
                     initialShoulderAngle := e1.anchors.initialShoulderAngle },
        scaleFactor := calculatedScaleOf e f,
        phase := Phase.LOCKED,
        pendingForceLock := false,
        maxReachCm := 0,
        failReason := none,
        counters := czero }
  else e1

/-- Step 5, hand-kinematics update. -/
def handUpdOf (e : Engine) (f : Frame) : KinematicChain × KinRes :=
  KinematicChain.update e.handKinematics (knuckleOf e f) f.t (activeScaleOf e f)

/-- Step 5, hip-kinematics update (runs even when the hand glitches). -/
def hipUpdOf (e : Engine) (f : Frame) : KinematicChain × KinRes :=
  KinematicChain.update e.hipKinematics (midHipW f.world) f.t (activeScaleOf e f)

/-- Engine state after steps 2-5 (both chains written back). -/
def kinEngineOf (e : Engine) (f : Frame) : Engine :=
  { preKinOf e f with handKinematics := (handUpdOf e f).1, hipKinematics := (hipUpdOf e f).1 }

def handSpeedOf (e : Engine) (f : Frame) : ℝ := (handUpdOf e f).2.speed * activeScaleOf e f

def hipSpeedOf (e : Engine) (f : Frame) : ℝ := (hipUpdOf e f).2.speed * activeScaleOf e f

/-- Committed basis, with zero default (the source reads it only after a
force lock has stored it). -/
def basisD (e : Engine) : BasisResult :=
  e.basis.getD ⟨vzero, vzero, vzero, vzero, 0, vzero⟩

def anchorStartD (e : Engine) : Vec3 := e.anchors.startKnuckle.getD vzero

def anchorMidHipD (e : Engine) : Vec3 := e.anchors.midHip.getD vzero

def anchorShoulderD (e : Engine) : Vec3 := e.anchors.shoulderVector.getD vzero

/-! Measured per-frame quantities of the `REACHING` fault checks, stated on
the frame-start engine state (they agree with the in-branch values whenever
no force lock is pending). -/

def leanDegOf (e : Engine) (f : Frame) : ℝ :=
  angleBetween (Vec3.sub (midShoulderW f.world) (midHipW f.world)) (basisD e).y

def slipCmOf (e : Engine) (f : Frame) : ℝ :=
  |project (Vec3.sub (midHipW f.world) (anchorMidHipD e)) (basisD e).z| * activeScaleOf e f

def rotationDegOf (e : Engine) (f : Frame) : ℝ :=
  angleBetween (Vec3.normalize (currentBasisOf e f).rawShoulderVec) (anchorShoulderD e)

def leanCmOf (e : Engine) (f : Frame) : ℝ :=
  |project (Vec3.sub (knuckleOf e f) (anchorStartD e)) (basisD e).x| * activeScaleOf e f

def hipRiseCmOf (e : Engine) (f : Frame) : ℝ :=
  project (Vec3.sub (midHipW f.world) (anchorMidHipD e)) (basisD e).y * activeScaleOf e f

/-- The live forward displacement of the knuckle from the calibrated start,
in centimeters (the `reachCm` of the `LOCKED`/`REACHING` branches). -/
def liveReachOf (e : Engine) (f : Frame) : ℝ :=
  project (Vec3.sub (knuckleOf e f) (anchorStartD e)) (basisD e).z * activeScaleOf e f

/-- Step 6, the engine-phase state machine. Takes the post-kinematics engine
and the frame-derived quantities; returns the updated engine, `reachCm` and
`stabilityProgress`. -/
def phaseStep (e : Engine) (knuckle currentMidHip currentMidShoulder : Vec3)
    (currentBasis : BasisResult) (activeScale handSpeed hipSpeed : ℝ) :
    Engine × ℝ × ℝ :=
  match e.phase with
  | Phase.UNSTABLE =>
      let c := if handSpeed < 1.5 ∧ hipSpeed < 1.5 then e.stabilityCounter + 1 else 0
      ({ e with stabilityCounter := c }, 0, min 100 ((c : ℝ) / 45 * 100))
  | Phase.LOCKED =>
      let displacement := Vec3.sub knuckle (e.anchors.startKnuckle.getD vzero)
      let reachCm := project displacement (basisD e).z * activeScale
      let e1 := if handSpeed > 5 ∨ reachCm > 4 then
                  { e with phase := Phase.REACHING, counters := czero }
                else e
      let e2 := if reachCm < -10 then
                  { e1 with phase := Phase.UNSTABLE, stabilityCounter := 0 }
                else e1
      (e2, reachCm, 100)
  | Phase.REACHING =>
      let displacement := Vec3.sub knuckle (e.anchors.startKnuckle.getD vzero)
      let reachCm := project displacement (basisD e).z * activeScale
      let maxR := if reachCm > e.maxReachCm then reachCm else e.maxReachCm
      let currentSpineVec := Vec3.sub currentMidShoulder currentMidHip
      let leanDeg := angleBetween currentSpineVec (basisD e).y
      let maxAllowedSlip := 8.0 + leanDeg / 10.0
      let hipShift := Vec3.sub currentMidHip (e.anchors.midHip.getD vzero)
      let slipCm := |project hipShift (basisD e).z| * activeScale
      let slipC := if slipCm > maxAllowedSlip then e.counters.slip + 1
                   else max 0 (e.counters.slip - 1)
      let fr1 := if slipC > 6 then some FailReason.TORSO_SLIP else e.failReason
      let currentShoulderVec := Vec3.normalize currentBasis.rawShoulderVec
      let rotationDeg := angleBetween currentShoulderVec (e.anchors.shoulderVector.getD vzero)
      let rotC := if rotationDeg > 25 then e.counters.rotation + 1
                  else max 0 (e.counters.rotation - 1)
      let fr2 := if rotC > 6 then some FailReason.ROTATION else fr1
      let leanCm := |project displacement (basisD e).x| * activeScale
      let leanC := if leanCm > 15 then e.counters.leanC + 1
                   else max 0 (e.counters.leanC - 1)
      let fr3 := if leanC > 6 then some FailReason.LATERAL_LEAN else fr2
      let hipRiseCm := project hipShift (basisD e).y * activeScale
      let liftC := if hipRiseCm > 8 then e.counters.lift + 1
                   else max 0 (e.counters.lift - 1)
      let fr4 := if liftC > 6 then some FailReason.BUTT_LIFT else fr3
      let momC := if handSpeed > 90 then e.counters.momentum + 1
                  else max 0 (e.counters.momentum - 1)
      let fr5 := if momC > 6 then some FailReason.MOMENTUM else fr4
      let ph := if maxR > 5 ∧ (handSpeed < 1.5 ∨ reachCm < maxR * 0.8) then Phase.RETURNING
                else Phase.REACHING
      ({ e with phase := ph, maxReachCm := maxR, failReason := fr5,
                counters := ⟨rotC, liftC, leanC, slipC, momC⟩ }, reachCm, 100)
  | Phase.RETURNING =>
      let reachCm := e.maxReachCm
      let distFromStart := mag (Vec3.sub knuckle (e.anchors.startKnuckle.getD vzero)) * activeScale
      let e1 := if distFromStart < 5 ∧ handSpeed < 2 then
                  { e with phase := Phase.LOCKED, maxReachCm := 0, failReason := none,
                           counters := czero }
                else e
      (e1, reachCm, 0)
  | Phase.COMPLETED => (e, 0, 0)

/-- Output lean angle from the 2D landmarks (screen-space spine vs. straight
up). In the model a zero-length 2D spine gives `arccos 0` instead of the
source's NaN; no theorem exercises that case. -/
def leanAngleOf (e : Engine) (f : Frame) : ℝ :=
  let idx := getIndices e.side
  let sx := (f.lm idx.SHOULDER).x - (f.lm idx.HIP).x
  let sy := (f.lm idx.SHOULDER).y - (f.lm idx.HIP).y
  Real.arccos ((sx * 0 + sy * (-1)) / (Real.sqrt (sx ^ 2 + sy ^ 2) * 1)) * (180 / Real.pi)

/-- Step 7 output record. -/
structure ResultPayload where
  estimatedReachCm : ℝ
  velocity : ℝ
  angle : ℝ
  zone : Zone
  kpiScore : ℝ
  isTracking : Bool
  isCalibrated : Bool
  faults : List FailReason
  stabilityProgress : ℝ
  internalPhase : Phase

/-- Step 7, output generation (`zone`, `faults`, KPI score, calibration flag). -/
def mkResult (ph : Phase) (reachCm handSpeed leanAngle stabilityProgress : ℝ)
    (failReason : Option FailReason) : ResultPayload :=
  let zone := if failReason.isSome then Zone.RED else Zone.GREEN
  let faults : List FailReason := match failReason with
    | some r => [r]
    | none => []
  let reachScore := min 50 (reachCm / 30 * 50)
  let stabilityScore : ℝ := if zone = Zone.RED then 0 else 50
  { estimatedReachCm := reachCm,
    velocity := handSpeed,
    angle := leanAngle,
    zone := zone,
    kpiScore := jsRound (reachScore + stabilityScore),
    isTracking := true,
    isCalibrated := if ph = Phase.UNSTABLE then false else true,
    faults := faults,
    stabilityProgress := stabilityProgress,
    internalPhase := ph }

/-- A per-frame output message: either the early-return glitch payload or the
full result record. -/
inductive Output
  | glitch (stabilityProgress : ℝ)
  | result (r : ResultPayload)

def Output.kpiVal : Output → Option ℝ
  | Output.glitch _ => none
  | Output.result r => some r.kpiScore

def Output.reachVal : Output → Option ℝ
  | Output.glitch _ => none
  | Output.result r => some r.estimatedReachCm

def Output.zoneVal : Output → Option Zone
  | Output.glitch _ => none
  | Output.result r => some r.zone

def Output.faultsVal : Output → Option (List FailReason)
  | Output.glitch _ => none
  | Output.result r => some r.faults

def Output.isCalibratedVal : Output → Option Bool
  | Output.glitch _ => none
  | Output.result r => some r.isCalibrated

def Output.stabProgress : Output → ℝ
  | Output.glitch s => s
  | Output.result r => r.stabilityProgress

/-- Source `MedicalEngine.process` for a non-null frame (the source returns `null`
for null landmark inputs, producing no result message). -/
def process (e : Engine) (f : Frame) : Engine × Output :=
  if (handUpdOf e f).2.glitch then (kinEngineOf e f, Output.glitch 0)
  else
    let r := phaseStep (kinEngineOf e f) (knuckleOf e f) (midHipW f.world)
      (midShoulderW f.world) (currentBasisOf e f) (activeScaleOf e f)
      (handSpeedOf e f) (hipSpeedOf e f)
    (r.1, Output.result (mkResult r.1.phase r.2.1 (handSpeedOf e f) (leanAngleOf e f)
      r.2.2 r.1.failReason))

/-! ## 7. Session trial state machine (`src/App.tsx`, GAME phase effect) -/

inductive TrialPhase
  | IDLE
  | REACHING
  | RETURNING
  | COOLDOWN
deriving DecidableEq

/-- Source `currentTrial.current` peak-tracking record; the failure snapshot is an
opaque payload. -/
structure CurrentTrial where
  maxReach : ℝ
  maxScore : ℝ
  maxVel : ℝ
  maxAngle : ℝ
  fail : Bool
  failSnapshot : Option Unit

/-- A committed trial record. -/
structure AttemptMetric where
  id : ℝ
  maxReachCm : ℝ
  maxLeanAngle : ℝ
  clinicalScore : ℝ
  maxVelocity : ℝ
  triggeredFail : Bool
  failureSnapshot : Option Unit

structure TrialState where
  trialPhase : TrialPhase
  history : List AttemptMetric
  cur : CurrentTrial
  trialStartTime : ℝ
  cooldownTimer : ℕ

/-- The per-result reading of the pose state consumed by the effect. -/
structure TrialInput where
  now : ℝ
  reach : ℝ
  vel : ℝ
  angle : ℝ
  kpi : ℝ
  isRed : Bool
  enginePhase : Phase

/-- One run of the clinical-trial effect (the `SessionPhase.GAME` guard is a
precondition; `Date.now()` inside the metric is identified with the `now`
read at the top of the effect). -/
def trialStep (s : TrialState) (i : TrialInput) : TrialState :=
  let cur :=
    if s.trialPhase = TrialPhase.REACHING ∨ s.trialPhase = TrialPhase.RETURNING then
      { maxReach := max s.cur.maxReach i.reach,
        maxScore := max s.cur.maxScore i.kpi,
        maxVel := max s.cur.maxVel i.vel,
        maxAngle := max s.cur.maxAngle i.angle,
        fail := s.cur.fail || i.isRed,
        failSnapshot := s.cur.failSnapshot }
    else s.cur
  match s.trialPhase with
  | TrialPhase.IDLE =>
      if i.enginePhase = Phase.REACHING then
        { s with trialPhase := TrialPhase.REACHING, trialStartTime := i.now,
                 cur := { maxReach := i.reach, maxScore := 0, maxVel := 0, maxAngle := 0,
                          fail := false, failSnapshot := none } }
      else { s with cur := cur }
  | TrialPhase.REACHING =>
      let ph := if i.now - s.trialStartTime > 10000 ∨
                   i.enginePhase = Phase.RETURNING ∨ i.enginePhase = Phase.COMPLETED ∨
                   i.enginePhase = Phase.LOCKED
                then TrialPhase.RETURNING else TrialPhase.REACHING
      { s with trialPhase := ph, cur := cur }
  | TrialPhase.RETURNING =>
      if i.reach < 5.0 ∨ i.enginePhase = Phase.LOCKED ∨ i.enginePhase = Phase.UNSTABLE then
        if cur.maxReach < 5.0 then
          { s with trialPhase := TrialPhase.IDLE, cur := cur }
        else
          let m : AttemptMetric :=
            { id := i.now, maxReachCm := cur.maxReach, maxLeanAngle := cur.maxAngle,
              clinicalScore := cur.maxScore, maxVelocity := cur.maxVel,
              triggeredFail := cur.fail, failureSnapshot := cur.failSnapshot }
          { s with trialPhase := TrialPhase.COOLDOWN, history := s.history ++ [m],
                   cur := { cur with failSnapshot := none }, cooldownTimer := 5 }
      else { s with cur := cur }
  | TrialPhase.COOLDOWN => { s with cur := cur }

/-! ## 8. Basic facts about `computeBasis` -/

theorem computeBasis_y (s : Side) (wl : ℕ → Vec3) :
    (computeBasis s wl).y = Vec3.normalize (spineVecOf wl) := rfl

theorem computeBasis_z (s : Side) (wl : ℕ → Vec3) :
    (computeBasis s wl).z =
      if dot (basisForwardRaw wl) (Vec3.normalize (armVecOf s wl)) < 0
      then Vec3.mul (basisForwardRaw wl) (-1) else basisForwardRaw wl := rfl

theorem computeBasis_x (s : Side) (wl : ℕ → Vec3) :
    (computeBasis s wl).x =
      Vec3.normalize (cross (computeBasis s wl).y (computeBasis s wl).z) := rfl

/-- C5: for every landmark frame whose shoulder, hip, and active-arm points
are non-degenerate (nonzero spine and shoulder vectors, axes not collinear —
all three captured by a nonzero cross product of the raw shoulder and spine
vectors), the anatomical frame builder returns an orthonormal right-handed
basis: unit axes, zero pairwise dot products,
`dot(forward, cross(lateral, vertical)) = +1`, and the lateral axis equal to
`normalize(cross(vertical, forward))`. -/
theorem C5_theorem (s : Side) (wl : ℕ → Vec3)
    (h : cross (shoulderVecOf wl) (spineVecOf wl) ≠ vzero) :
    mag (computeBasis s wl).x = 1 ∧ mag (computeBasis s wl).y = 1 ∧
    mag (computeBasis s wl).z = 1 ∧
    dot (computeBasis s wl).x (computeBasis s wl).y = 0 ∧
    dot (computeBasis s wl).x (computeBasis s wl).z = 0 ∧
    dot (computeBasis s wl).y (computeBasis s wl).z = 0 ∧
    dot (computeBasis s wl).z (cross (computeBasis s wl).x (computeBasis s wl).y) = 1 ∧
    (computeBasis s wl).x = Vec3.normalize (cross (computeBasis s wl).y (computeBasis s wl).z) := by
  have hsh : shoulderVecOf wl ≠ vzero := by
    intro h0; exact h (by rw [h0, cross_zero_left])
  have hsp : spineVecOf wl ≠ vzero := by
    intro h0; exact h (by rw [h0, cross_zero_right])
  have hqm : mag (shoulderVecOf wl) ≠ 0 := mag_ne_zero _ hsh
  have hpm : mag (spineVecOf wl) ≠ 0 := mag_ne_zero _ hsp
  -- the vertical axis
  have hYY : dot (computeBasis s wl).y (computeBasis s wl).y = 1 := by
    rw [computeBasis_y]; exact normalize_dot_self _ hsp
  -- the un-normalized forward axis is a nonzero rescaling of the raw cross
  have hcr : cross (Vec3.normalize (shoulderVecOf wl)) (Vec3.normalize (spineVecOf wl)) =
      Vec3.mul (cross (shoulderVecOf wl) (spineVecOf wl))
        ((mag (shoulderVecOf wl))⁻¹ * (mag (spineVecOf wl))⁻¹) := by
    rw [normalize_eq_mul _ hsh, normalize_eq_mul _ hsp, cross_mul_left, cross_mul_right, mul_mul,
      mul_comm]
  have hcrne : cross (Vec3.normalize (shoulderVecOf wl)) (Vec3.normalize (spineVecOf wl)) ≠ vzero := by
    rw [hcr]
    exact mul_ne_zero_vec _ _ h (mul_ne_zero (inv_ne_zero hqm) (inv_ne_zero hpm))
  have hZ1Z1 : dot (basisForwardRaw wl) (basisForwardRaw wl) = 1 :=
    normalize_dot_self _ hcrne
  have hZ1Y : dot (basisForwardRaw wl) (computeBasis s wl).y = 0 := by
    rw [computeBasis_y]
    unfold basisForwardRaw
    rw [normalize_eq_mul _ hcrne, dot_mul_left, dot_cross_right, mul_zero]
  -- the sign-corrected forward axis keeps unit length and orthogonality
  have hZZ : dot (computeBasis s wl).z (computeBasis s wl).z = 1 := by
    rw [computeBasis_z]
    split
    · rw [dot_mul_left, dot_mul_right, hZ1Z1]; ring
    · exact hZ1Z1
  have hZY : dot (computeBasis s wl).z (computeBasis s wl).y = 0 := by
    rw [computeBasis_z]
    split
    · rw [dot_mul_left, hZ1Y]; ring
    · exact hZ1Y
  have hYZ : dot (computeBasis s wl).y (computeBasis s wl).z = 0 := by
    rw [dot_comm]; exact hZY
  -- the re-orthogonalized lateral axis
  have hcYZ : dot (cross (computeBasis s wl).y (computeBasis s wl).z)
      (cross (computeBasis s wl).y (computeBasis s wl).z) = 1 := by
    rw [cross_lagrange, hYY, hZZ, hYZ]; ring
  have hX : (computeBasis s wl).x = cross (computeBasis s wl).y (computeBasis s wl).z := by
    rw [computeBasis_x]; exact normalize_of_dot_one _ hcYZ
  have hXX : dot (computeBasis s wl).x (computeBasis s wl).x = 1 := by rw [hX]; exact hcYZ
  have hXY : dot (computeBasis s wl).x (computeBasis s wl).y = 0 := by
    rw [hX]; exact dot_cross_left _ _
  have hXZ : dot (computeBasis s wl).x (computeBasis s wl).z = 0 := by
    rw [hX]; exact dot_cross_right _ _
  have hhanded : cross (computeBasis s wl).x (computeBasis s wl).y = (computeBasis s wl).z := by
    rw [hX, cross_cross_left, hYY, dot_comm, hZY, mul_one_vec, mul_zero_vec, sub_zero_vec]
  refine ⟨mag_one_of_dot_one _ hXX, mag_one_of_dot_one _ hYY, mag_one_of_dot_one _ hZZ,
    hXY, hXZ, hYZ, ?_, computeBasis_x s wl⟩
  rw [hhanded]; exact hZZ

/-- C6: for every landmark frame with a nonzero active-arm vector, the forward
axis of the computed basis satisfies
`dot(forward, normalize(activeWrist - activeShoulder)) ≥ 0`, and whenever the
initially computed forward axis has a negative dot product with the arm
vector, the returned forward axis is its negation. -/
theorem C6_theorem (s : Side) (wl : ℕ → Vec3) (h : armVecOf s wl ≠ vzero) :
    0 ≤ dot (computeBasis s wl).z (Vec3.normalize (armVecOf s wl)) ∧
    (dot (basisForwardRaw wl) (Vec3.normalize (armVecOf s wl)) < 0 →
      (computeBasis s wl).z = Vec3.mul (basisForwardRaw wl) (-1)) := by
  constructor
  · rw [computeBasis_z]
    split
    · rename_i hneg
      rw [dot_mul_left]
      linarith
    · rename_i hpos
      linarith [not_lt.mp hpos]
  · intro hneg
    rw [computeBasis_z, if_pos hneg]

/-! ## 9. Structural lemmas about `process` -/

theorem phaseStep_scaleFactor (e : Engine) (k mh ms : Vec3) (cb : BasisResult)
    (as hs hps : ℝ) : ((phaseStep e k mh ms cb as hs hps).1).scaleFactor = e.scaleFactor := by
  unfold phaseStep
  cases e.phase <;> simp only [] <;> split_ifs <;> rfl

theorem kinEngine_pending_scale (e : Engine) (f : Frame) (h : e.pendingForceLock = true) :
    (kinEngineOf e f).scaleFactor = calculatedScaleOf e f := by
  simp [kinEngineOf, preKinOf, e1Of, h]

/-- Fields of the post-kinematics engine that agree with the frame-start
state whenever no force lock is pending. -/
theorem kinEngine_no_lock (e : Engine) (f : Frame) (h : e.pendingForceLock = false) :
    (kinEngineOf e f).phase = e.phase ∧
    (kinEngineOf e f).counters = e.counters ∧
    (kinEngineOf e f).failReason = e.failReason ∧
    (kinEngineOf e f).maxReachCm = e.maxReachCm ∧
    (kinEngineOf e f).anchors = e.anchors ∧
    (kinEngineOf e f).basis = e.basis ∧
    (kinEngineOf e f).scaleFactor = e.scaleFactor ∧
    (kinEngineOf e f).stabilityCounter = e.stabilityCounter := by
  simp [kinEngineOf, preKinOf, e1Of, h]

/-- C7: at a calibration lock the committed scale factor is the fused value;
the fusion trusts the arm-derived scale `A/a` exactly when the relative
divergence from the spine-derived scale `0.29·H/s` is below 0.20, and falls
back to the spine-derived scale otherwise; in the spec scenario H=170, A=75,
s=0.42, a=0.18 the divergence exceeds 0.20 and the locked value is the
spine-derived ≈117.4, not ≈416.7. -/
theorem C7_theorem :
    (∀ (e : Engine) (f : Frame), e.pendingForceLock = true →
        ((process e f).1).scaleFactor =
          calculatedScaleF e.patientHeightCm e.patientArmLengthCm
            (currentBasisOf e f).rawSpineLength (armMetersOf e f)) ∧
    (∀ H A s a : ℝ, 0 < s → 0 < a →
        (|A / a - H * 0.29 / s| / (H * 0.29 / s) < 0.2 → calculatedScaleF H A s a = A / a) ∧
        (¬ |A / a - H * 0.29 / s| / (H * 0.29 / s) < 0.2 →
          calculatedScaleF H A s a = H * 0.29 / s)) ∧
    calculatedScaleF 170 75 0.42 0.18 = 170 * 0.29 / 0.42 ∧
    calculatedScaleF 170 75 0.42 0.18 ≠ 75 / 0.18 ∧
    ¬ |(75 : ℝ) / 0.18 - 170 * 0.29 / 0.42| / (170 * 0.29 / 0.42) < 0.2 := by
  have hdiv : ¬ |(75 : ℝ) / 0.18 - 170 * 0.29 / 0.42| / (170 * 0.29 / 0.42) < 0.2 := by
    rw [abs_of_nonneg (by norm_num)]
    norm_num
  refine ⟨?_, ?_, ?_, ?_, hdiv⟩
  · intro e f h
    unfold process
    split
    · rw [kinEngine_pending_scale e f h]; rfl
    · simp only [phaseStep_scaleFactor]
      rw [kinEngine_pending_scale e f h]; rfl
  · intro H A s a _ _
    constructor
    · intro hlt; unfold calculatedScaleF; rw [if_pos hlt]
    · intro hge; unfold calculatedScaleF; rw [if_neg hge]
  · unfold calculatedScaleF
    rw [if_neg hdiv]
  · unfold calculatedScaleF
    rw [if_neg hdiv]
    norm_num

/-- C8: in the session trial state machine, a `RETURNING` frame that fires the
end trigger appends an `AttemptMetric` if and only if the attempt's maximum
observed reach (after the frame's peak update) reached the 5.0 cm validity
threshold; a below-threshold cycle is discarded back to `IDLE` with no record,
an above-threshold cycle appends exactly one record and moves to `COOLDOWN`;
without the end trigger the history is unchanged and the phase stays
`RETURNING`. -/
theorem C8_theorem (s : TrialState) (i : TrialInput)
    (hph : s.trialPhase = TrialPhase.RETURNING) :
    ((i.reach < 5.0 ∨ i.enginePhase = Phase.LOCKED ∨ i.enginePhase = Phase.UNSTABLE) →
      (max s.cur.maxReach i.reach < 5 →
        (trialStep s i).history = s.history ∧ (trialStep s i).trialPhase = TrialPhase.IDLE) ∧
      (5 ≤ max s.cur.maxReach i.reach →
        (trialStep s i).history =
          s.history ++ [{ id := i.now, maxReachCm := max s.cur.maxReach i.reach,
                          maxLeanAngle := max s.cur.maxAngle i.angle,
                          clinicalScore := max s.cur.maxScore i.kpi,
                          maxVelocity := max s.cur.maxVel i.vel,
                          triggeredFail := s.cur.fail || i.isRed,
                          failureSnapshot := s.cur.failSnapshot }] ∧
        (trialStep s i).history.length = s.history.length + 1 ∧
        (trialStep s i).trialPhase = TrialPhase.COOLDOWN)) ∧
    (¬(i.reach < 5.0 ∨ i.enginePhase = Phase.LOCKED ∨ i.enginePhase = Phase.UNSTABLE) →
      (trialStep s i).history = s.history ∧
      (trialStep s i).trialPhase = TrialPhase.RETURNING) := by
  have h50 : (5.0 : ℝ) = 5 := by norm_num
  constructor
  · intro htrig
    constructor
    · intro hlow
      obtain ⟨ha, hb⟩ := max_lt_iff.mp hlow
      simp [trialStep, hph, htrig, h50, ha, hb]
    · intro hhigh
      have hna : ¬(s.cur.maxReach < 5 ∧ i.reach < 5) := by
        rw [← max_lt_iff]
        exact not_lt.mpr hhigh
      rw [h50] at htrig
      simp [trialStep, hph, htrig, h50, hna]
  · intro htrig
    simp [trialStep, hph, htrig]

/-! ## 10. Process-level theorems: phase behaviour and output suppression -/

theorem sub_self_vec (v : Vec3) : Vec3.sub v v = vzero := by
  unfold Vec3.sub vzero; ext <;> simp

theorem dot_vzero_left (b : Vec3) : dot vzero b = 0 := by
  unfold dot vzero; ring

/-- Fields of the post-kinematics engine when a force lock fires. -/
theorem kinEngine_lock (e : Engine) (f : Frame) (h : e.pendingForceLock = true) :
    (kinEngineOf e f).phase = Phase.LOCKED ∧
    (kinEngineOf e f).anchors.startKnuckle = some (knuckleOf e f) ∧
    (kinEngineOf e f).failReason = none ∧
    (kinEngineOf e f).counters = czero ∧
    (kinEngineOf e f).maxReachCm = 0 ∧
    (kinEngineOf e f).pendingForceLock = false := by
  simp [kinEngineOf, preKinOf, e1Of, h]

/-- C9: whenever the engine phase is `RETURNING` (with no pending force lock
and no glitch), the emitted `estimatedReachCm` is the attempt's running
maximum `maxReachCm`, not the live forward displacement; the live
displacement is reported again in the `LOCKED` phase. -/
theorem C9_theorem (e : Engine) (f : Frame) (hp : e.pendingForceLock = false)
    (hg : (handUpdOf e f).2.glitch = false) :
    (e.phase = Phase.RETURNING →
      Output.reachVal ((process e f).2) = some e.maxReachCm) ∧
    (e.phase = Phase.LOCKED →
      Output.reachVal ((process e f).2) = some (liveReachOf e f)) := by
  obtain ⟨hph, hcnt, hfr, hmax, hanc, hbas, hsc, hst⟩ := kinEngine_no_lock e f hp
  constructor
  · intro h1
    simp only [process, hg, Bool.false_eq_true, if_false]
    simp only [phaseStep, hph, h1]
    simp [Output.reachVal, mkResult, hmax]
  · intro h1
    simp only [process, hg, Bool.false_eq_true, if_false]
    simp only [phaseStep, hph, h1]
    simp [Output.reachVal, mkResult, liveReachOf, anchorStartD, basisD, hanc, hbas]

/-- C10: while the engine phase is `UNSTABLE` and no calibration command is
pending, `process` keeps the phase `UNSTABLE`; 45 accumulated low-speed frames
drive `stabilityProgress` to 100 without leaving `UNSTABLE`; the only exit is
the force lock triggered by a prior `CALIBRATE` message, which `calibrate`
arms by setting `pendingForceLock`. -/
theorem C10_theorem (e : Engine) (f : Frame) (p : CalibPayload) :
    (e.phase = Phase.UNSTABLE → e.pendingForceLock = false →
      ((process e f).1).phase = Phase.UNSTABLE) ∧
    (e.phase = Phase.UNSTABLE → e.pendingForceLock = false →
      (handUpdOf e f).2.glitch = false →
      handSpeedOf e f < 1.5 → hipSpeedOf e f < 1.5 → 44 ≤ e.stabilityCounter →
      Output.stabProgress ((process e f).2) = 100) ∧
    (e.pendingForceLock = true → ((process e f).1).phase ≠ Phase.UNSTABLE) ∧
    ((calibrate e p).pendingForceLock = true ∧ (calibrate e p).phase = Phase.UNSTABLE) := by
  refine ⟨?_, ?_, ?_, by simp [calibrate], by simp [calibrate]⟩
  · intro h1 h2
    obtain ⟨hph, _, _, _, _, _, _, _⟩ := kinEngine_no_lock e f h2
    by_cases hg : (handUpdOf e f).2.glitch
    · simp only [process, hg, if_true]
      rw [hph, h1]
    · simp only [process, Bool.not_eq_true] at hg ⊢
      simp only [hg, Bool.false_eq_true, if_false]
      simp only [phaseStep, hph, h1]
  · intro h1 h2 hg hhand hhip hcnt
    obtain ⟨hph, _, _, _, _, _, _, hst⟩ := kinEngine_no_lock e f h2
    simp only [process, hg, Bool.false_eq_true, if_false]
    simp only [phaseStep, hph, h1]
    simp only [Output.stabProgress, mkResult, if_pos (And.intro hhand hhip), hst]
    have h45 : (45 : ℝ) ≤ ((e.stabilityCounter + 1 : ℕ) : ℝ) := by
      have : 45 ≤ e.stabilityCounter + 1 := by omega
      exact_mod_cast this
    have h100 : (100 : ℝ) ≤ ((e.stabilityCounter + 1 : ℕ) : ℝ) / 45 * 100 := by
      nlinarith
    exact min_eq_left h100
  · intro h1
    obtain ⟨hph, hanc, hfr, hcnt, hmax, hpend⟩ := kinEngine_lock e f h1
    by_cases hg : (handUpdOf e f).2.glitch
    · simp only [process, hg, if_true]
      simp [hph]
    · simp only [process, Bool.not_eq_true] at hg ⊢
      simp only [hg, Bool.false_eq_true, if_false]
      simp only [phaseStep, hph]
      have hreach : project (Vec3.sub (knuckleOf e f)
          ((kinEngineOf e f).anchors.startKnuckle.getD vzero)) (basisD (kinEngineOf e f)).z *
          activeScaleOf e f = 0 := by
        rw [hanc]
        simp [sub_self_vec, project, dot_vzero_left]
      rw [hreach]
      norm_num
      split <;> simp [hph]

theorem jsRound_fifty : jsRound 50 = 50 := by
  have h := jsRound_eval 50 50 (by norm_num) (by norm_num)
  rw [h]
  norm_num

/-- Output facts on any non-glitch frame processed from an uncalibrated
state (helper shared by several claims). -/
theorem unstable_output (e : Engine) (f : Frame)
    (h1 : e.phase = Phase.UNSTABLE) (h2 : e.pendingForceLock = false)
    (h3 : e.failReason = none) (hg : (handUpdOf e f).2.glitch = false) :
    Output.isCalibratedVal ((process e f).2) = some false ∧
    Output.reachVal ((process e f).2) = some 0 ∧
    Output.faultsVal ((process e f).2) = some [] ∧
    Output.kpiVal ((process e f).2) = some 50 ∧
    Output.zoneVal ((process e f).2) = some Zone.GREEN := by
  obtain ⟨hph, hcnt, hfr, hmax, hanc, hbas, hsc, hst⟩ := kinEngine_no_lock e f h2
  simp only [process, hg, Bool.false_eq_true, if_false]
  simp only [phaseStep, hph, h1]
  refine ⟨?_, ?_, ?_, ?_, ?_⟩
  · simp [Output.isCalibratedVal, mkResult]
  · simp [Output.reachVal, mkResult]
  · simp [Output.faultsVal, mkResult, hfr, h3]
  · simp only [Output.kpiVal, mkResult, hfr, h3]
    have : min (50 : ℝ) (0 / 30 * 50) + 50 = 50 := by norm_num
    simp [this, jsRound_fifty]
  · simp [Output.zoneVal, mkResult, hfr, h3]

/-- C3 (amended): on a frame processed from an uncalibrated state (phase
`UNSTABLE`, no pending force lock, no recorded fault) that yields a result,
the output reports `isCalibrated = false`, zero reach and an empty fault
list — but a `kpiScore` of 50 (the stability component is not suppressed). -/
theorem C3_theorem (e : Engine) (f : Frame)
    (h1 : e.phase = Phase.UNSTABLE) (h2 : e.pendingForceLock = false)
    (h3 : e.failReason = none) (hg : (handUpdOf e f).2.glitch = false) :
    Output.isCalibratedVal ((process e f).2) = some false ∧
    Output.reachVal ((process e f).2) = some 0 ∧
    Output.faultsVal ((process e f).2) = some [] ∧
    Output.kpiVal ((process e f).2) = some 50 := by
  obtain ⟨ha, hb, hc, hd, _⟩ := unstable_output e f h1 h2 h3 hg
  exact ⟨ha, hb, hc, hd⟩

theorem kpi_le_100 (x s : ℝ) (hs : s = 0 ∨ s = 50) :
    jsRound (min 50 x + s) ≤ 100 := by
  have hx : min (50 : ℝ) x ≤ 50 := min_le_left _ _
  have hsum : min (50 : ℝ) x + s ≤ 100 := by rcases hs with h | h <;> rw [h] <;> linarith
  have := jsRound_le_of_le (min 50 x + s) 100 100 hsum (by norm_num)
  exact_mod_cast this

theorem kpi_nonneg (x s : ℝ) (hx : 0 ≤ x) (hs : s = 0 ∨ s = 50) :
    0 ≤ jsRound (min 50 x + s) := by
  have hmin : 0 ≤ min (50 : ℝ) x := le_min (by norm_num) hx
  have hsum : 0 ≤ min (50 : ℝ) x + s := by rcases hs with h | h <;> rw [h] <;> linarith
  exact jsRound_nonneg _ hsum

/-- C1 (amended): for every processed frame that yields a result, the emitted
`kpiScore` equals `Math.round(reachComponent + stabilityComponent)` with
`reachComponent = min(50, reachCm/30×50)` and `stabilityComponent = 0` on a
RED zone and `50` otherwise — with no clamping. The score is always ≤ 100,
and it lies in `[0, 100]` whenever the emitted `reachCm` is nonnegative; for
sufficiently negative reach it drops below 0. -/
theorem C1_theorem (e : Engine) (f : Frame) (rc k : ℝ) (z : Zone)
    (hrc : Output.reachVal ((process e f).2) = some rc)
    (hk : Output.kpiVal ((process e f).2) = some k)
    (hz : Output.zoneVal ((process e f).2) = some z) :
    k = jsRound (min 50 (rc / 30 * 50) + (if z = Zone.RED then 0 else 50)) ∧
    k ≤ 100 ∧ (0 ≤ rc → 0 ≤ k) := by
  by_cases hg : (handUpdOf e f).2.glitch
  · simp [process, hg, Output.reachVal] at hrc
  · simp only [Bool.not_eq_true] at hg
    simp only [process, hg, Bool.false_eq_true, if_false] at hrc hk hz
    simp only [Output.reachVal, Output.kpiVal, Output.zoneVal, mkResult,
      Option.some.injEq] at hrc hk hz
    subst hrc hk hz
    have hs : (if (if ((phaseStep (kinEngineOf e f) (knuckleOf e f) (midHipW f.world)
        (midShoulderW f.world) (currentBasisOf e f) (activeScaleOf e f) (handSpeedOf e f)
        (hipSpeedOf e f)).1.failReason).isSome then Zone.RED else Zone.GREEN) = Zone.RED
        then (0 : ℝ) else 50) = 0 ∨
        (if (if ((phaseStep (kinEngineOf e f) (knuckleOf e f) (midHipW f.world)
        (midShoulderW f.world) (currentBasisOf e f) (activeScaleOf e f) (handSpeedOf e f)
        (hipSpeedOf e f)).1.failReason).isSome then Zone.RED else Zone.GREEN) = Zone.RED
        then (0 : ℝ) else 50) = 50 := by
      split <;> simp
    exact ⟨rfl, kpi_le_100 _ _ hs, fun h0 => kpi_nonneg _ _ (by positivity) hs⟩

/-- A kinematic chain is unchanged by an update that reports a glitch. -/
theorem update_glitch_preserve (c : KinematicChain) (pt : Vec3) (t s : ℝ)
    (h : (KinematicChain.update c pt t s).2.glitch = true) :
    (KinematicChain.update c pt t s).1 = c := by
  by_cases hgl : KinematicChain.glitchTest c pt t s
  · simp [KinematicChain.update, hgl]
  · simp only [Bool.not_eq_true] at hgl
    simp [KinematicChain.update, hgl] at h

/-- C2 (amended): on a non-glitch `REACHING` frame with no pending force
lock, the recorded fault reason after `process` is given by the reversed
priority chain of the five debounced criteria: every criterion whose updated
counter exceeds 6 overwrites the reason in source order (slip, rotation,
lean, lift, momentum), so the last-checked tripping criterion wins and a
previously recorded reason survives only if no criterion trips this frame —
the recorded reason is not sticky. -/
theorem C2_theorem (e : Engine) (f : Frame)
    (h1 : e.phase = Phase.REACHING) (h2 : e.pendingForceLock = false)
    (hg : (handUpdOf e f).2.glitch = false) :
    ((process e f).1).failReason =
      (if (if handSpeedOf e f > 90 then e.counters.momentum + 1
           else max 0 (e.counters.momentum - 1)) > 6 then some FailReason.MOMENTUM
       else if (if hipRiseCmOf e f > 8 then e.counters.lift + 1
           else max 0 (e.counters.lift - 1)) > 6 then some FailReason.BUTT_LIFT
       else if (if leanCmOf e f > 15 then e.counters.leanC + 1
           else max 0 (e.counters.leanC - 1)) > 6 then some FailReason.LATERAL_LEAN
       else if (if rotationDegOf e f > 25 then e.counters.rotation + 1
           else max 0 (e.counters.rotation - 1)) > 6 then some FailReason.ROTATION
       else if (if slipCmOf e f > 8.0 + leanDegOf e f / 10.0 then e.counters.slip + 1
           else max 0 (e.counters.slip - 1)) > 6 then some FailReason.TORSO_SLIP
       else e.failReason) := by
  obtain ⟨hph, hcnt, hfr, hmax, hanc, hbas, hsc, hst⟩ := kinEngine_no_lock e f h2
  have hbasD : basisD (kinEngineOf e f) = basisD e := by
    unfold basisD; rw [hbas]
  simp only [process, hg, Bool.false_eq_true, if_false]
  simp only [phaseStep, hph, h1, hbasD, hanc, hcnt, hfr]
  simp only [slipCmOf, leanDegOf, rotationDegOf, leanCmOf, hipRiseCmOf,
    anchorStartD, anchorMidHipD, anchorShoulderD]

/-- C4 (amended): a frame whose end-effector displacement trips the >500 cm/s
glitch guard yields the early `GLITCH` output and skips the whole state
machine: the hand smoother does not advance and — when no force lock is
pending — phase, fault counters, fault reason and max reach are untouched.
However the frame is not fully discarded: the hip smoother has already been
updated (see the counterexample), and a pending calibration force lock still
executes, moving the phase to `LOCKED` on the glitch frame. -/
theorem C4_theorem (e : Engine) (f : Frame) (h : (handUpdOf e f).2.glitch = true) :
    (process e f).2 = Output.glitch 0 ∧
    (process e f).1 = kinEngineOf e f ∧
    ((process e f).1).handKinematics = e.handKinematics ∧
    ((process e f).1).hipKinematics = (hipUpdOf e f).1 ∧
    (e.pendingForceLock = false →
      ((process e f).1).phase = e.phase ∧ ((process e f).1).counters = e.counters ∧
      ((process e f).1).failReason = e.failReason ∧
      ((process e f).1).maxReachCm = e.maxReachCm) ∧
    (e.pendingForceLock = true → ((process e f).1).phase = Phase.LOCKED) := by
  have hproc : process e f = (kinEngineOf e f, Output.glitch 0) := by
    simp [process, h]
  have hhand : ((process e f).1).handKinematics = e.handKinematics := by
    rw [hproc]
    simp only [kinEngineOf]
    exact update_glitch_preserve _ _ _ _ h
  refine ⟨by rw [hproc], by rw [hproc], hhand, by rw [hproc]; simp [kinEngineOf], ?_, ?_⟩
  · intro hp
    obtain ⟨hph, hcnt, hfr, hmax, _, _, _, _⟩ := kinEngine_no_lock e f hp
    rw [hproc]
    exact ⟨hph, hcnt, hfr, hmax⟩
  · intro hp
    obtain ⟨hph, _, _, _, _, _⟩ := kinEngine_lock e f hp
    rw [hproc]
    exact hph

/-! ## 11. Concrete frames and engine states for witnesses and
counterexamples -/

/-- An upright side-view skeleton in world units: shoulders at height 4,
hips at height 0, the left arm pointing forward along +z. -/
def wl0 : ℕ → Vec3 := fun n =>
  if n = 11 then ⟨-1, 4, 0⟩
  else if n = 12 then ⟨1, 4, 0⟩
  else if n = 13 then ⟨-1, 4, 1⟩
  else if n = 15 then ⟨-1, 4, 2⟩
  else if n = 19 then ⟨-1, 4, 3⟩
  else if n = 23 then ⟨-1, 0, 0⟩
  else if n = 24 then ⟨1, 0, 0⟩
  else ⟨0, 0, 0⟩

/-- 2D landmarks with the shoulder one unit straight above the hip in
screen space. -/
def lm0 : ℕ → Vec3 := fun n =>
  if n = 11 then ⟨0.5, 0.2, 0⟩
  else if n = 23 then ⟨0.5, 1.2, 0⟩
  else ⟨0, 0, 0⟩

def frame0 : Frame := ⟨lm0, wl0, 1000⟩

/-- Uncalibrated state with 44 accumulated stability frames. -/
def E10 : Engine := { initEngine with stabilityCounter := 44 }

/-- Uncalibrated state with an armed force lock (a `CALIBRATE` message has
been received). -/
def E7lock : Engine := { initEngine with pendingForceLock := true }

/-- A fresh chain never reports a glitch (no previous valid point). -/
theorem fresh_no_glitch (e : Engine) (f : Frame)
    (h : e.handKinematics.lastValidPoint = none) :
    (handUpdOf e f).2.glitch = false := by
  have hg : KinematicChain.glitchTest e.handKinematics (knuckleOf e f) f.t
      (activeScaleOf e f) = false := by
    unfold KinematicChain.glitchTest
    rw [h]
  simp [handUpdOf, KinematicChain.update, hg]

theorem glitch_E0 : (handUpdOf initEngine frame0).2.glitch = false :=
  fresh_no_glitch initEngine frame0 rfl

theorem glitch_E10 : (handUpdOf E10 frame0).2.glitch = false :=
  fresh_no_glitch E10 frame0 rfl

/-- Smoothed speed is zero while freshly reset windows are still filling. -/
theorem fresh_speed (c : KinematicChain) (pt : Vec3) (t s : ℝ)
    (hg : KinematicChain.glitchTest c pt t s = false)
    (hx : c.x.window.length ≤ 3) (hy : c.y.window.length ≤ 3)
    (hz : c.z.window.length ≤ 3) :
    (KinematicChain.update c pt t s).2.speed = 0 := by
  simp only [KinematicChain.update, hg, Bool.false_eq_true, if_false]
  have hx5 : ¬ 5 < c.x.window.length + 1 := by omega
  have hy5 : ¬ 5 < c.y.window.length + 1 := by omega
  have hz5 : ¬ 5 < c.z.window.length + 1 := by omega
  have hx4 : (c.x.window ++ [pt.x]).length < 5 := by simp; omega
  have hy4 : (c.y.window ++ [pt.y]).length < 5 := by simp; omega
  have hz4 : (c.z.window ++ [pt.z]).length < 5 := by simp; omega
  simp only [SavitzkyGolaySolver.push, SavitzkyGolaySolver.solve, List.length_append,
    List.length_cons, List.length_nil]
  simp only [if_neg hx5, if_neg hy5, if_neg hz5]
  rw [if_pos (by simpa using hx4), if_pos (by simpa using hy4), if_pos (by simpa using hz4)]
  norm_num

theorem handSpeed_E10 : handSpeedOf E10 frame0 = 0 := by
  unfold handSpeedOf handUpdOf
  rw [fresh_speed _ _ _ _ (by unfold KinematicChain.glitchTest; rfl)
    (by norm_num [E10, initEngine, emptyChain, emptySGS])
    (by norm_num [E10, initEngine, emptyChain, emptySGS])
    (by norm_num [E10, initEngine, emptyChain, emptySGS]), zero_mul]

theorem hipSpeed_E10 : hipSpeedOf E10 frame0 = 0 := by
  unfold hipSpeedOf hipUpdOf
  rw [fresh_speed _ _ _ _ (by unfold KinematicChain.glitchTest; rfl)
    (by norm_num [E10, initEngine, emptyChain, emptySGS])
    (by norm_num [E10, initEngine, emptyChain, emptySGS])
    (by norm_num [E10, initEngine, emptyChain, emptySGS]), zero_mul]

/-! ## 12. Witnesses and counterexamples on the concrete inputs -/

/-- C3 counterexample: the very first uncalibrated frame is emitted with
`isCalibrated = false` but `kpiScore = 50`, not the zero the claim requires
for a suppressed score output. -/
theorem C3_counterexample :
    Output.isCalibratedVal ((process initEngine frame0).2) = some false ∧
    Output.kpiVal ((process initEngine frame0).2) = some 50 ∧ (50 : ℝ) ≠ 0 := by
  obtain ⟨ha, _, _, hd, _⟩ := unstable_output initEngine frame0 rfl rfl rfl glitch_E0
  exact ⟨ha, hd, by norm_num⟩

/-- C3 witness: the amended claim at the initial engine state and a concrete
upright frame. -/
theorem C3_witness :
    Output.isCalibratedVal ((process initEngine frame0).2) = some false ∧
    Output.reachVal ((process initEngine frame0).2) = some 0 ∧
    Output.faultsVal ((process initEngine frame0).2) = some [] ∧
    Output.kpiVal ((process initEngine frame0).2) = some 50 :=
  C3_theorem initEngine frame0 rfl rfl rfl glitch_E0

/-- C1 witness: the amended claim at the initial engine state processing a
concrete frame (reach 0, zone GREEN, score 50). -/
theorem C1_witness :
    (50 : ℝ) = jsRound (min 50 ((0 : ℝ) / 30 * 50) +
      (if Zone.GREEN = Zone.RED then 0 else 50)) ∧
    (50 : ℝ) ≤ 100 ∧ ((0 : ℝ) ≤ 0 → (0 : ℝ) ≤ 50) := by
  obtain ⟨_, hb, _, hd, he⟩ := unstable_output initEngine frame0 rfl rfl rfl glitch_E0
  exact C1_theorem initEngine frame0 0 50 Zone.GREEN hb hd he

/-- C10 witness: concrete instances of all four parts. -/
theorem C10_witness :
    ((process initEngine frame0).1).phase = Phase.UNSTABLE ∧
    Output.stabProgress ((process E10 frame0).2) = 100 ∧
    ((process E7lock frame0).1).phase ≠ Phase.UNSTABLE ∧
    (calibrate initEngine ⟨170, 75⟩).pendingForceLock = true := by
  refine ⟨(C10_theorem initEngine frame0 ⟨170, 75⟩).1 rfl rfl, ?_, ?_, ?_⟩
  · exact (C10_theorem E10 frame0 ⟨170, 75⟩).2.1 rfl rfl glitch_E10
      (by rw [handSpeed_E10]; norm_num) (by rw [hipSpeed_E10]; norm_num)
      (by norm_num [E10])
  · exact (C10_theorem E7lock frame0 ⟨170, 75⟩).2.2.1 rfl
  · exact (C10_theorem initEngine frame0 ⟨170, 75⟩).2.2.2.1

/-- C7 witness: the locked scale factor at a concrete force-lock frame, and
the fusion function on concrete measured lengths (divergence above 0.20,
spine fallback), including the spec scenario values. -/
theorem C7_witness :
    ((process E7lock frame0).1).scaleFactor =
      calculatedScaleF E7lock.patientHeightCm E7lock.patientArmLengthCm
        (currentBasisOf E7lock frame0).rawSpineLength (armMetersOf E7lock frame0) ∧
    calculatedScaleF 170 75 4 3 = 170 * 0.29 / 4 ∧
    calculatedScaleF 170 75 0.42 0.18 = 170 * 0.29 / 0.42 := by
  refine ⟨C7_theorem.1 E7lock frame0 rfl, ?_, C7_theorem.2.2.1⟩
  exact (C7_theorem.2.1 170 75 4 3 (by norm_num) (by norm_num)).2
    (by rw [abs_of_nonneg (by norm_num)]; norm_num)

def ts1 : TrialState := ⟨TrialPhase.RETURNING, [], ⟨4.9, 0, 0, 0, false, none⟩, 0, 0⟩

def ts2 : TrialState := ⟨TrialPhase.RETURNING, [], ⟨10, 0, 0, 0, false, none⟩, 0, 0⟩

def ti1 : TrialInput := ⟨0, 1, 0, 0, 0, false, Phase.LOCKED⟩

/-- C8 witness: a triggered cycle with max reach 4.9 cm is discarded to IDLE
with no record; one with max reach 10 cm appends exactly one record and
moves to COOLDOWN. -/
theorem C8_witness :
    ((trialStep ts1 ti1).history = [] ∧ (trialStep ts1 ti1).trialPhase = TrialPhase.IDLE) ∧
    ((trialStep ts2 ti1).history.length = 1 ∧
      (trialStep ts2 ti1).trialPhase = TrialPhase.COOLDOWN) := by
  constructor
  · exact ((C8_theorem ts1 ti1 rfl).1 (Or.inr (Or.inl rfl))).1
      (by norm_num [ts1, ti1])
  · have h := ((C8_theorem ts2 ti1 rfl).1 (Or.inr (Or.inl rfl))).2
      (by norm_num [ts2, ti1, le_max_iff])
    exact ⟨by simpa [ts2] using h.2.1, h.2.2⟩

/-- C5 witness: the orthonormal right-handed basis facts at a concrete
non-degenerate frame. -/
theorem C5_witness :
    mag (computeBasis Side.LEFT wl0).x = 1 ∧ mag (computeBasis Side.LEFT wl0).y = 1 ∧
    mag (computeBasis Side.LEFT wl0).z = 1 ∧
    dot (computeBasis Side.LEFT wl0).x (computeBasis Side.LEFT wl0).y = 0 ∧
    dot (computeBasis Side.LEFT wl0).x (computeBasis Side.LEFT wl0).z = 0 ∧
    dot (computeBasis Side.LEFT wl0).y (computeBasis Side.LEFT wl0).z = 0 ∧
    dot (computeBasis Side.LEFT wl0).z
      (cross (computeBasis Side.LEFT wl0).x (computeBasis Side.LEFT wl0).y) = 1 ∧
    (computeBasis Side.LEFT wl0).x =
      Vec3.normalize (cross (computeBasis Side.LEFT wl0).y (computeBasis Side.LEFT wl0).z) := by
  apply C5_theorem Side.LEFT wl0
  intro hc
  have hz := congrArg Vec3.z hc
  norm_num [cross, shoulderVecOf, spineVecOf, midShoulderW, midHipW, wl0,
    Vec3.sub, Vec3.add, Vec3.mul, vzero] at hz

/-- C6 witness: the forward-axis sign invariant at a concrete frame with a
nonzero active-arm vector. -/
theorem C6_witness :
    0 ≤ dot (computeBasis Side.LEFT wl0).z (Vec3.normalize (armVecOf Side.LEFT wl0)) := by
  refine (C6_theorem Side.LEFT wl0 ?_).1
  intro hc
  have hz := congrArg Vec3.z hc
  norm_num [armVecOf, getIndices, wl0, Vec3.sub, vzero] at hz

/-! ## 13. A calibrated `LOCKED` state whose frame moved the hand far
backward: the emitted score drops below zero (C1). The state is reachable:
after a force lock at start knuckle `(-1, 4, -0.8)` with locked scale 100,
the hand drifted slowly to `(-1, 4, -1.4)` (previous sample 500 ms earlier,
within the glitch bound), putting the live reach at -60 cm. -/

def wl1 : ℕ → Vec3 := fun n =>
  if n = 11 then ⟨-1, 4, 0⟩
  else if n = 12 then ⟨1, 4, 0⟩
  else if n = 13 then ⟨-1, 4, 0⟩
  else if n = 15 then ⟨-1, 4, -1⟩
  else if n = 19 then ⟨-1, 4, 3⟩
  else if n = 23 then ⟨-1, 0, 0⟩
  else if n = 24 then ⟨1, 0, 0⟩
  else ⟨0, 0, 0⟩

def frame1 : Frame := ⟨lm0, wl1, 1000⟩

/-- The committed basis of the concrete calibration: identity axes anchored
at the origin, raw spine length 4, raw shoulder vector `(2,0,0)`. -/
def B1 : BasisResult := ⟨⟨1, 0, 0⟩, ⟨0, 1, 0⟩, ⟨0, 0, 1⟩, ⟨0, 0, 0⟩, 4, ⟨2, 0, 0⟩⟩

def E1 : Engine := { initEngine with
  phase := Phase.LOCKED,
  scaleFactor := 100,
  basis := some B1,
  anchors := ⟨some ⟨-1, 4, -0.8⟩, some ⟨0, 0, 0⟩, 4, some ⟨1, 0, 0⟩, 0⟩,
  handKinematics := ⟨⟨[-1], [500]⟩, ⟨[4], [500]⟩, ⟨[-1.4], [500]⟩,
    some ⟨-1, 4, -1.4⟩, 500⟩ }

theorem knuckle_E1 : knuckleOf E1 frame1 = ⟨-1, 4, -1.4⟩ := by
  unfold knuckleOf knuckleDirOf
  norm_num [getIndices, E1, initEngine, frame1, wl1, Vec3.sub, Vec3.add, Vec3.mul,
    mag, Vec3.normalize, Real.sqrt_one, Vec3.mk.injEq]

theorem activeScale_E1 : activeScaleOf E1 frame1 = 100 := by
  unfold activeScaleOf
  rw [if_pos ⟨by simp [E1, initEngine], by norm_num [E1, initEngine]⟩]
  rfl

theorem glitchTest_E1 : KinematicChain.glitchTest E1.handKinematics (knuckleOf E1 frame1)
    frame1.t (activeScaleOf E1 frame1) = false := by
  rw [knuckle_E1, activeScale_E1]
  unfold KinematicChain.glitchTest
  norm_num [E1, initEngine, frame1, Vec3.sub, mag, Real.sqrt_zero,
    decide_eq_false_iff_not]

theorem glitch_E1 : (handUpdOf E1 frame1).2.glitch = false := by
  simp [handUpdOf, KinematicChain.update, glitchTest_E1]

theorem handSpeed_E1 : handSpeedOf E1 frame1 = 0 := by
  unfold handSpeedOf handUpdOf
  rw [fresh_speed _ _ _ _ glitchTest_E1
    (by norm_num [E1, initEngine]) (by norm_num [E1, initEngine])
    (by norm_num [E1, initEngine]), zero_mul]

theorem jsRound_neg_fifty : jsRound (-50) = -50 := by
  have h := jsRound_eval (-50) (-50) (by norm_num) (by norm_num)
  rw [h]
  norm_num

theorem E1_phase : E1.phase = Phase.LOCKED := rfl

/-- The frame processed from `E1`: live reach -60 cm, zone GREEN, and a
kpiScore of `round(min(50, -100) + 50) = -50`. -/
theorem kpi_E1 : Output.kpiVal ((process E1 frame1).2) = some (-50) := by
  obtain ⟨hph, hcnt, hfr, hmax, hanc, hbas, hsc, hst⟩ := kinEngine_no_lock E1 frame1 rfl
  have hbasD : basisD (kinEngineOf E1 frame1) = B1 := by
    unfold basisD
    rw [hbas]
    rfl
  have hstart : E1.anchors.startKnuckle.getD vzero = ⟨-1, 4, -0.8⟩ := rfl
  have hfr1 : E1.failReason = none := rfl
  simp only [process, glitch_E1, Bool.false_eq_true, if_false]
  simp only [phaseStep, hph, E1_phase, hbasD, hanc, hfr, hstart, hfr1, knuckle_E1,
    handSpeed_E1, activeScale_E1]
  norm_num [B1, Vec3.sub, project, dot, Output.kpiVal, mkResult,
    min_def, jsRound_neg_fifty, hfr, hfr1]
  rw [if_neg (by simp : ¬ (Zone.GREEN = Zone.RED))]
  norm_num [jsRound_neg_fifty]

/-- C1 counterexample: a concrete processed frame whose emitted composite
score is -50, outside [0,100] (so the output is not the claimed clamped
value). -/
theorem C1_counterexample :
    Output.kpiVal ((process E1 frame1).2) = some (-50) ∧ ¬ (0 : ℝ) ≤ -50 := by
  exact ⟨kpi_E1, by norm_num⟩

/-! ## 14. A mid-attempt `REACHING` state with a recorded TORSO_SLIP fault
whose next frame trips the rotation criterion (shoulders turned 90° from the
anchored axis, rotation counter at 6): the recorded fault reason is
overwritten (C2). -/

def wl2 : ℕ → Vec3 := fun n =>
  if n = 11 then ⟨0, 4, -1⟩
  else if n = 12 then ⟨0, 4, 1⟩
  else if n = 13 then ⟨-2, 4, -2⟩
  else if n = 15 then ⟨-2, 4, -1⟩
  else if n = 19 then ⟨-3, 4, -1⟩
  else if n = 23 then ⟨-1, 0, 0⟩
  else if n = 24 then ⟨1, 0, 0⟩
  else ⟨0, 0, 0⟩

def frame2 : Frame := ⟨lm0, wl2, 1000⟩

def E2 : Engine := { initEngine with
  phase := Phase.REACHING,
  scaleFactor := 10,
  basis := some B1,
  anchors := ⟨some ⟨-2, 4, -0.6⟩, some ⟨0, 0, 0⟩, 4, some ⟨1, 0, 0⟩, 0⟩,
  counters := ⟨6, 0, 0, 0, 0⟩,
  failReason := some FailReason.TORSO_SLIP }

theorem knuckle_E2 : knuckleOf E2 frame2 = ⟨-2, 4, -0.6⟩ := by
  unfold knuckleOf knuckleDirOf
  norm_num [getIndices, E2, initEngine, frame2, wl2, Vec3.sub, Vec3.add, Vec3.mul,
    mag, Vec3.normalize, Real.sqrt_one, Vec3.mk.injEq]

theorem activeScale_E2 : activeScaleOf E2 frame2 = 10 := by
  unfold activeScaleOf
  rw [if_pos ⟨by simp [E2, initEngine], by norm_num [E2, initEngine]⟩]
  rfl

theorem glitch_E2 : (handUpdOf E2 frame2).2.glitch = false :=
  fresh_no_glitch E2 frame2 rfl

theorem handSpeed_E2 : handSpeedOf E2 frame2 = 0 := by
  unfold handSpeedOf handUpdOf
  rw [fresh_speed _ _ _ _ (by unfold KinematicChain.glitchTest; rfl)
    (by norm_num [E2, initEngine, emptyChain, emptySGS])
    (by norm_num [E2, initEngine, emptyChain, emptySGS])
    (by norm_num [E2, initEngine, emptyChain, emptySGS]), zero_mul]

theorem rawShoulder_E2 : (currentBasisOf E2 frame2).rawShoulderVec = ⟨0, 0, 2⟩ := by
  norm_num [currentBasisOf, computeBasis, shoulderVecOf, frame2, wl2, Vec3.sub,
    Vec3.mk.injEq]

theorem E2_phase : E2.phase = Phase.REACHING := rfl

/-- Processing `frame2` from `E2` overwrites the recorded TORSO_SLIP fault
with ROTATION. -/
theorem failReason_E2 : ((process E2 frame2).1).failReason = some FailReason.ROTATION := by
  obtain ⟨hph, hcnt, hfr, hmax, hanc, hbas, hsc, hst⟩ := kinEngine_no_lock E2 frame2 rfl
  have hbasD : basisD (kinEngineOf E2 frame2) = B1 := by
    unfold basisD
    rw [hbas]
    rfl
  have hstart : E2.anchors.startKnuckle.getD vzero = ⟨-2, 4, -0.6⟩ := rfl
  have hmid : E2.anchors.midHip.getD vzero = ⟨0, 0, 0⟩ := rfl
  have hshoulder : E2.anchors.shoulderVector.getD vzero = ⟨1, 0, 0⟩ := rfl
  have hfr2 : E2.failReason = some FailReason.TORSO_SLIP := rfl
  have hc1 : E2.counters.rotation = 6 := rfl
  have hc2 : E2.counters.lift = 0 := rfl
  have hc3 : E2.counters.leanC = 0 := rfl
  have hc4 : E2.counters.slip = 0 := rfl
  have hc5 : E2.counters.momentum = 0 := rfl
  have hmax2 : E2.maxReachCm = 0 := rfl
  simp only [process, glitch_E2, Bool.false_eq_true, if_false]
  simp only [phaseStep, hph, E2_phase, hbasD, hanc, hcnt, hfr, hmax, hstart, hmid,
    hshoulder, hfr2, hc1, hc2, hc3, hc4, hc5, hmax2, knuckle_E2, handSpeed_E2,
    activeScale_E2, rawShoulder_E2]
  norm_num [B1, Vec3.sub, Vec3.add, Vec3.mul, project, dot, mag, Vec3.normalize,
    angleBetween, midShoulderW, midHipW, frame2, wl2, sqrt_sixteen, sqrt_four,
    Real.sqrt_one, min_def, max_def, arccos_one_deg, arccos_zero_deg, pi_half_deg,
    hcnt, hc1, hc2, hc3, hc4, hc5]

/-- C2 counterexample: within one attempt (the engine stays in `REACHING`),
the recorded first fault TORSO_SLIP is overwritten by the later-tripping
ROTATION criterion. -/
theorem C2_counterexample :
    E2.failReason = some FailReason.TORSO_SLIP ∧
    E2.phase = Phase.REACHING ∧
    ((process E2 frame2).1).failReason = some FailReason.ROTATION :=
  ⟨rfl, rfl, failReason_E2⟩

/-- C2 witness: the amended per-frame fault-reason characterization at the
concrete mid-attempt state. -/
theorem C2_witness :
    ((process E2 frame2).1).failReason =
      (if (if handSpeedOf E2 frame2 > 90 then E2.counters.momentum + 1
           else max 0 (E2.counters.momentum - 1)) > 6 then some FailReason.MOMENTUM
       else if (if hipRiseCmOf E2 frame2 > 8 then E2.counters.lift + 1
           else max 0 (E2.counters.lift - 1)) > 6 then some FailReason.BUTT_LIFT
       else if (if leanCmOf E2 frame2 > 15 then E2.counters.leanC + 1
           else max 0 (E2.counters.leanC - 1)) > 6 then some FailReason.LATERAL_LEAN
       else if (if rotationDegOf E2 frame2 > 25 then E2.counters.rotation + 1
           else max 0 (E2.counters.rotation - 1)) > 6 then some FailReason.ROTATION
       else if (if slipCmOf E2 frame2 > 8.0 + leanDegOf E2 frame2 / 10.0 then
             E2.counters.slip + 1
           else max 0 (E2.counters.slip - 1)) > 6 then some FailReason.TORSO_SLIP
       else E2.failReason) :=
  C2_theorem E2 frame2 rfl rfl glitch_E2

/-- A `RETURNING` state mid-attempt with running maximum reach 7 cm. -/
def E9 : Engine := { E2 with phase := Phase.RETURNING, maxReachCm := 7 }

theorem glitch_E9 : (handUpdOf E9 frame2).2.glitch = false :=
  fresh_no_glitch E9 frame2 rfl

/-- C9 witness: a `RETURNING` frame emits the stored maximum (7 cm), and a
`LOCKED` frame emits the live displacement. -/
theorem C9_witness :
    Output.reachVal ((process E9 frame2).2) = some 7 ∧
    Output.reachVal ((process E1 frame1).2) = some (liveReachOf E1 frame1) := by
  constructor
  · exact (C9_theorem E9 frame2 rfl glitch_E9).1 rfl
  · exact (C9_theorem E1 frame1 rfl glitch_E1).2 rfl

/-! ## 15. A `LOCKED` frame whose hand jumps 7 world units in one second
(700 cm/s at the locked scale 100): the hand glitch fires, yet the hip
smoother still advances (C4). -/

def wl4 : ℕ → Vec3 := fun n =>
  if n = 11 then ⟨-1, 4, 0⟩
  else if n = 12 then ⟨1, 4, 0⟩
  else if n = 13 then ⟨-1, 4, 0⟩
  else if n = 15 then ⟨-1, 4, 5⟩
  else if n = 19 then ⟨-1, 4, 3⟩
  else if n = 23 then ⟨-1, 0, 0⟩
  else if n = 24 then ⟨1, 0, 0⟩
  else ⟨0, 0, 0⟩

def frame4 : Frame := ⟨lm0, wl4, 2000⟩

def E4 : Engine := { initEngine with
  phase := Phase.LOCKED,
  scaleFactor := 100,
  basis := some B1,
  anchors := ⟨some ⟨-1, 4, 0⟩, some ⟨0, 0, 0⟩, 4, some ⟨1, 0, 0⟩, 0⟩,
  handKinematics := ⟨⟨[-1], [1000]⟩, ⟨[4], [1000]⟩, ⟨[0], [1000]⟩,
    some ⟨-1, 4, 0⟩, 1000⟩ }

theorem knuckle_E4 : knuckleOf E4 frame4 = ⟨-1, 4, 7⟩ := by
  unfold knuckleOf knuckleDirOf
  norm_num [getIndices, E4, initEngine, frame4, wl4, Vec3.sub, Vec3.add, Vec3.mul,
    mag, Vec3.normalize, sqrt_twentyfive, Vec3.mk.injEq]

theorem activeScale_E4 : activeScaleOf E4 frame4 = 100 := by
  unfold activeScaleOf
  rw [if_pos ⟨by simp [E4, initEngine], by norm_num [E4, initEngine]⟩]
  rfl

theorem glitchTest_E4 : KinematicChain.glitchTest E4.handKinematics (knuckleOf E4 frame4)
    frame4.t (activeScaleOf E4 frame4) = true := by
  rw [knuckle_E4, activeScale_E4]
  unfold KinematicChain.glitchTest
  norm_num [E4, initEngine, frame4, Vec3.sub, mag, sqrt_fortynine, decide_eq_true_eq]

theorem glitch_E4 : (handUpdOf E4 frame4).2.glitch = true := by
  simp [handUpdOf, KinematicChain.update, glitchTest_E4]

/-- C4 counterexample: the hand-glitch frame is reported as a glitch, but the
hip smoother window has advanced from 0 to 1 samples — the frame is not
discarded with "no state update". -/
theorem C4_counterexample :
    (handUpdOf E4 frame4).2.glitch = true ∧
    (process E4 frame4).2 = Output.glitch 0 ∧
    E4.hipKinematics.x.window.length = 0 ∧
    ((process E4 frame4).1).hipKinematics.x.window.length = 1 := by
  refine ⟨glitch_E4, by simp [process, glitch_E4], rfl, ?_⟩
  have h1 : (process E4 frame4).1 = kinEngineOf E4 frame4 := by simp [process, glitch_E4]
  rw [h1]
  have hg : KinematicChain.glitchTest E4.hipKinematics (midHipW frame4.world) frame4.t
      (activeScaleOf E4 frame4) = false := by
    unfold KinematicChain.glitchTest
    rfl
  simp only [kinEngineOf, hipUpdOf]
  simp only [KinematicChain.update, hg, Bool.false_eq_true, if_false]
  simp [SavitzkyGolaySolver.push, E4, initEngine, emptyChain, emptySGS]

/-- C4 witness: the amended glitch-frame behaviour at the concrete state
(glitch output, hand smoother unchanged, phase untouched without a pending
force lock). -/
theorem C4_witness :
    (process E4 frame4).2 = Output.glitch 0 ∧
    ((process E4 frame4).1).handKinematics = E4.handKinematics ∧
    ((process E4 frame4).1).phase = E4.phase := by
  have h := C4_theorem E4 frame4 glitch_E4
  exact ⟨h.1, h.2.2.1, (h.2.2.2.2.1 rfl).1⟩

end

end MFRT
